import Mathlib

/-!
Verification of the QLaibLib coincidence/metrics code.

Python dictionaries are embedded as association lists in insertion order;
`dict.get(k, default)` becomes a lookup with a default value.  Python
floats are embedded as rationals (the code under study only adds,
subtracts, multiplies and divides values obtained from integer counts, so
exact rational arithmetic is the intended semantics of the formulas).
-/

namespace QLaibLib

/-- Lookup in an association list with string keys, returning 0 for a
missing key: the embedding of Python `counts.get(label, 0)`. -/
def getCount (counts : List (String × Nat)) (label : String) : Nat :=
  match counts.find? (fun p => p.1 == label) with
  | some p => p.2
  | none => 0

/-- Lookup of a rational value in an association list with string keys,
returning 0 for a missing key (embedding of `d.get(label, 0)` /
`d[label]` for a dict known to contain `label`). -/
def getRat (d : List (String × Rat)) (label : String) : Rat :=
  match d.find? (fun p => p.1 == label) with
  | some p => p.2
  | none => 0

/-- Lookup of a natural value in an association list with natural keys,
returning 0 for a missing key (embedding of `singles[ch]`). -/
def getNat (d : List (Nat × Nat)) (ch : Nat) : Nat :=
  match d.find? (fun p => p.1 == ch) with
  | some p => p.2
  | none => 0

/-- Embedding of `qlaiblib.data.models.CoincidenceResult`: a mapping
label → count and a mapping label → accidental estimate, each in
insertion order. -/
structure CoincidenceResult where
  counts : List (String × Nat)
  accidentals : List (String × Rat)

/-- Embedding of `qlaiblib.data.models.MetricValue`. -/
structure MetricValue where
  name : String
  value : Rat
  extras : List (String × Rat)
deriving DecidableEq

/-- Embedding of `_correlation` from `src/qlaiblib/metrics/chsh.py`. -/
def _correlation (counts : List (String × Nat))
    (labels : String × String × String × String) : Rat :=
  let Npp := getCount counts labels.1
  let Npm := getCount counts labels.2.1
  let Nmp := getCount counts labels.2.2.1
  let Nmm := getCount counts labels.2.2.2
  let total := Npp + Npm + Nmp + Nmm
  if total = 0 then 0
  else ((Npp : Rat) + Nmm - Npm - Nmp) / total

/-- Embedding of `chsh_metric` from `src/qlaiblib/metrics/chsh.py`. -/
def chsh_metric (result : CoincidenceResult) : MetricValue :=
  let counts := result.counts
  let E_ab := _correlation counts ("HH", "HV", "VH", "VV")
  let E_abp := _correlation counts ("HD", "HA", "VD", "VA")
  let E_apb := _correlation counts ("DH", "DV", "AH", "AV")
  let E_apbp := _correlation counts ("DD", "DA", "AD", "AA")
  let value := E_ab - E_abp + E_apb + E_apbp
  { name := "CHSH_S"
    value := value
    extras :=
      [ ("E_ab", E_ab)
      , ("E_abp", E_abp)
      , ("E_apb", E_apb)
      , ("E_apbp", E_apbp) ] }

/-- The correlation coefficient as the specification words it: given the
four counts N++, N+−, N−+, N−− of one setting pair,
E = (N++ + N−− − N+− − N−+) / N_total, and 0 when N_total = 0. -/
def specCorrelation (npp npm nmp nmm : Nat) : Rat :=
  let ntotal : Nat := npp + npm + nmp + nmm
  if ntotal = 0 then 0
  else ((npp : Rat) + nmm - npm - nmp) / ntotal

/-- The spec-side correlation coefficient of a result for one group of
four coincidence labels (order: ++, +−, −+, −−). -/
def specE (r : CoincidenceResult) (lpp lpm lmp lmm : String) : Rat :=
  specCorrelation (getCount r.counts lpp) (getCount r.counts lpm)
    (getCount r.counts lmp) (getCount r.counts lmm)

/-- Embedding of `CHSH_LABELS` from `src/qlaiblib/coincidence/specs.py`:
the sixteen coincidence labels the CHSH metric reads. -/
def CHSH_LABELS : List String :=
  [ "HH", "HV", "VH", "VV"
  , "HD", "HA", "VD", "VA"
  , "DH", "DV", "AH", "AV"
  , "DD", "DA", "AD", "AA" ]

/-- Embedding of `qlaiblib.data.models.CoincidenceSpec`: a labelled channel
tuple with a coincidence window and a delay (the delay defaults to 0, as
in the dataclass). -/
structure CoincidenceSpec where
  label : String
  channels : List Nat
  window_ps : Rat
  delay_ps : Rat := 0
deriving DecidableEq

/-- Embedding of `DEFAULT_PAIRS` from `src/qlaiblib/coincidence/specs.py`. -/
def DEFAULT_PAIRS : List CoincidenceSpec :=
  [ { label := "HH", channels := [1, 5], window_ps := 200, delay_ps := 0 }
  , { label := "VV", channels := [2, 6], window_ps := 200, delay_ps := 0 }
  , { label := "DD", channels := [3, 7], window_ps := 200, delay_ps := 0 }
  , { label := "AA", channels := [4, 8], window_ps := 200, delay_ps := 0 }
  , { label := "HV", channels := [1, 6], window_ps := 200, delay_ps := 0 }
  , { label := "VH", channels := [2, 5], window_ps := 200, delay_ps := 0 }
  , { label := "DA", channels := [3, 8], window_ps := 200, delay_ps := 0 }
  , { label := "AD", channels := [4, 7], window_ps := 200, delay_ps := 0 }
  , { label := "HD", channels := [1, 7], window_ps := 200, delay_ps := 0 }
  , { label := "HA", channels := [1, 8], window_ps := 200, delay_ps := 0 }
  , { label := "VD", channels := [2, 7], window_ps := 200, delay_ps := 0 }
  , { label := "VA", channels := [2, 8], window_ps := 200, delay_ps := 0 }
  , { label := "DH", channels := [3, 5], window_ps := 200, delay_ps := 0 }
  , { label := "DV", channels := [3, 6], window_ps := 200, delay_ps := 0 }
  , { label := "AH", channels := [4, 5], window_ps := 200, delay_ps := 0 }
  , { label := "AV", channels := [4, 6], window_ps := 200, delay_ps := 0 } ]

/-- Embedding of `GHZ_TRIPLETS` from `src/qlaiblib/coincidence/specs.py`
(constructed without an explicit delay, so the field default 0 applies). -/
def GHZ_TRIPLETS : List CoincidenceSpec :=
  [ { label := "GHZ_135", channels := [1, 3, 5], window_ps := 300 }
  , { label := "GHZ_246", channels := [2, 4, 6], window_ps := 300 } ]

/-- Embedding of `DEFAULT_SPECS` from `src/qlaiblib/coincidence/specs.py`. -/
def DEFAULT_SPECS : List CoincidenceSpec := DEFAULT_PAIRS ++ GHZ_TRIPLETS

/-- Characters Python `str.strip()` removes (ASCII whitespace). -/
def isPySpace (c : Char) : Bool :=
  c == ' ' || c == '\t' || c == '\n' || c == '\r' || c == '\x0b' || c == '\x0c'

/-- Embedding of Python `s.strip()`: drop whitespace at both ends. -/
def pyStrip (s : String) : String :=
  String.mk (((s.data.dropWhile isPySpace).reverse.dropWhile isPySpace).reverse)

/-- Embedding of Python `s.startswith(pre)` (code points compared). -/
def pyStartsWith (s pre : String) : Bool :=
  s.data.take pre.data.length == pre.data

/-- Embedding of the Python slice `s[n:]` (by code points). -/
def pyDropChars (s : String) (n : Nat) : String :=
  String.mk (s.data.drop n)

/-- Value of a string of decimal digits. -/
def natOfDigits (cs : List Char) : Nat :=
  cs.foldl (fun acc c => 10 * acc + (c.toNat - '0'.toNat)) 0

/-- Consume an optional leading sign, returning it as ±1. -/
def parseSign : List Char → Int × List Char
  | '+' :: rest => (1, rest)
  | '-' :: rest => (-1, rest)
  | cs => (1, cs)

/-- Embedding of Python `float(s)` on the finite decimal syntax:
optional surrounding whitespace, optional sign, digits with an optional
decimal point (at least one digit), optional exponent.  The special
spellings inf/nan and digit-group underscores, which denote no rational,
are outside the model; none of the claims involve them. -/
def parseFloat (s : String) : Option Rat :=
  let cs0 := (pyStrip s).data
  let sc := parseSign cs0
  let intPart := sc.2.takeWhile Char.isDigit
  let rest1 := sc.2.dropWhile Char.isDigit
  let fracRest : List Char × List Char :=
    match rest1 with
    | '.' :: r => (r.takeWhile Char.isDigit, r.dropWhile Char.isDigit)
    | _ => ([], rest1)
  if intPart.isEmpty && fracRest.1.isEmpty then none
  else
    let mantissa : Rat :=
      (sc.1 : Rat) * (natOfDigits (intPart ++ fracRest.1) : Rat) /
        ((10 : Rat) ^ fracRest.1.length)
    match fracRest.2 with
    | [] => some mantissa
    | e :: r =>
      if e == 'e' || e == 'E' then
        let es := parseSign r
        let eDigits := es.2.takeWhile Char.isDigit
        let eRest := es.2.dropWhile Char.isDigit
        if eDigits.isEmpty || !eRest.isEmpty then none
        else some (mantissa * (10 : Rat) ^ (es.1 * (natOfDigits eDigits : Int)))
      else none

/-- Round a rational to the nearest integer, ties to the even integer
(the rounding of Python's fixed-point float formatting). -/
def roundHalfEven (q : Rat) : Int :=
  let f := q.floor
  let r := q - f
  if r < 1 / 2 then f
  else if 1 / 2 < r then f + 1
  else if f % 2 = 0 then f else f + 1

/-- Two-digit zero-padded decimal rendering of a value below 100. -/
def pad2 (n : Nat) : String :=
  if n < 10 then "0" ++ toString n else toString n

/-- Embedding of the Python format of a float with 2 decimals: the value
rounded to two decimal places (ties to even) and printed with exactly two
decimals. -/
def fmt2 (q : Rat) : String :=
  let scaled := roundHalfEven (q * 100)
  let sign := if scaled < 0 then "-" else ""
  sign ++ toString (scaled.natAbs / 100) ++ "." ++ pad2 (scaled.natAbs % 100)

/-- Rendering of the exposure value in the reply text (Python
interpolates `str(float)` there; integers are printed as n.0 and other
values exactly, which is adequate here since no claim constrains this
reply's digits). -/
def fmtExposure (q : Rat) : String :=
  if q.den = 1 then toString q.num ++ ".0"
  else toString q.num ++ "/" ++ toString q.den

/-- Embedding of `_format_payload` from `src/Server.py`: parts are
accumulated in order — singles channels sorted ascending as
"Channel<k>: <count>", then each coincidence label as "<label>: <count>",
then (when the accidentals dict is present and non-empty, Python
truthiness) each accidentals label as "<label>_acc: <2-decimal value>" —
and joined with ", ". -/
def _format_payload (singles : List (Nat × Nat))
    (coincidences : List (String × Nat))
    (accidentals : Option (List (String × Rat))) : String :=
  let parts : List String := []
  let parts := (List.insertionSort (· ≤ ·) (singles.map Prod.fst)).foldl
    (fun ps ch =>
      ps ++ ["Channel" ++ toString ch ++ ": " ++ toString (getNat singles ch)])
    parts
  let parts := (coincidences.map Prod.fst).foldl
    (fun ps label =>
      ps ++ [label ++ ": " ++ toString (getCount coincidences label)])
    parts
  let parts :=
    match accidentals with
    | some accs =>
      if accs.isEmpty then parts
      else
        (accs.map Prod.fst).foldl
          (fun ps label => ps ++ [label ++ "_acc: " ++ fmt2 (getRat accs label)])
          parts
    | none => parts
  String.intercalate ", " parts

/-- The exposure state the EXPOSURE command updates: the stored
`cfg.exposure_sec` and the backend's exposure (set via the backend's
exposure setter). -/
structure ServerState where
  exposure_sec : Rat
  backendExposure : Rat
deriving DecidableEq

/-- Embedding of the command dispatch of `server` in `src/Server.py`
(lines 97-130), for one received command already decoded and stripped.
The data derived from the captured batch (singles, coincidence counts,
accidentals) is passed in, since capture is external I/O.  Returns the
reply text, the exposure state after the command, and the `run` flag of
the serving loop. -/
def serverDispatch (includeAcc : Bool) (singles : List (Nat × Nat))
    (counts : List (String × Nat)) (accidentals : List (String × Rat))
    (st : ServerState) (command : String) : String × ServerState × Bool :=
  if command = "GATHER DATA" then
    ( _format_payload singles counts
        (if includeAcc then some accidentals else none)
    , st, true )
  else if command = "STOP" then
    ("Ending recording now.", st, false)
  else if pyStartsWith command "EXPOSURE" then
    match parseFloat (pyStrip (pyDropChars command 8)) with
    | some x =>
        ("Exposure time is " ++ fmtExposure x ++ " s.", ServerState.mk x x, true)
    | none => ("Invalid exposure time value.", st, true)
  else
    ("Unknown command", st, true)

/-- Lookup of a calibrated delay, 0 for a channel without an entry. -/
def getDelay (delays_ps : List (Nat × Rat)) (ch : Nat) : Rat :=
  match delays_ps.find? (fun p => p.1 == ch) with
  | some p => p.2
  | none => 0

/-- Modelled from the spec: `specs_from_delays` (module
`qlaiblib.coincidence.delays`, not among the sources) builds the
measurement spec set from the calibration table — one CoincidenceSpec per
like pair and per cross pair with the given window, each carrying as its
delay the difference of its two channels' calibrated delays (second
channel minus first; a channel without an entry contributes 0). -/
def specs_from_delays (window_ps : Rat)
    (like_pairs cross_pairs : List (String × Nat × Nat))
    (delays_ps : List (Nat × Rat)) : List CoincidenceSpec :=
  (like_pairs ++ cross_pairs).map fun p =>
    { label := p.1
      channels := [p.2.1, p.2.2]
      window_ps := window_ps
      delay_ps := getDelay delays_ps p.2.2 - getDelay delays_ps p.2.1 }

end QLaibLib

namespace QLaibLib

theorem correlation_eq_spec (counts : List (String × Nat))
    (lpp lpm lmp lmm : String) :
    _correlation counts (lpp, lpm, lmp, lmm) =
      specCorrelation (getCount counts lpp) (getCount counts lpm)
        (getCount counts lmp) (getCount counts lmm) := rfl

/-- C1: for every CoincidenceResult, `chsh_metric` computes the four
two-setting correlation coefficients, each from four coincidence labels
by the formula E = (N++ + N−− − N+− − N−+) / N_total with E = 0 when
N_total = 0, over the groups (HH,HV,VH,VV), (HD,HA,VD,VA), (DH,DV,AH,AV),
(DD,DA,AD,AA); its value is S = E_ab − E_ab' + E_a'b + E_a'b' and the
four coefficients are reported in extras. -/
theorem chsh_metric_spec (r : CoincidenceResult) :
    (chsh_metric r).value =
        specE r "HH" "HV" "VH" "VV" - specE r "HD" "HA" "VD" "VA"
          + specE r "DH" "DV" "AH" "AV" + specE r "DD" "DA" "AD" "AA" ∧
      (chsh_metric r).extras =
        [ ("E_ab", specE r "HH" "HV" "VH" "VV")
        , ("E_abp", specE r "HD" "HA" "VD" "VA")
        , ("E_apb", specE r "DH" "DV" "AH" "AV")
        , ("E_apbp", specE r "DD" "DA" "AD" "AA") ] := by
  constructor <;> rfl

theorem getCount_of_not_mem (counts : List (String × Nat)) (l : String)
    (h : ∀ p ∈ counts, p.1 ≠ l) : getCount counts l = 0 := by
  unfold getCount
  rw [List.find?_eq_none.mpr]
  intro p hp
  simpa using h p hp

/-- C2: `chsh_metric` is total over any CoincidenceResult; a label missing
from the counts contributes count 0, and on a result whose sixteen CHSH
label counts are all zero (in particular when the labels are absent) the
value is exactly 0 and all four extras are 0. -/
theorem chsh_metric_all_zero (r : CoincidenceResult)
    (hz : ∀ l ∈ CHSH_LABELS, getCount r.counts l = 0) :
    (∀ l : String, (∀ p ∈ r.counts, p.1 ≠ l) → getCount r.counts l = 0) ∧
      (chsh_metric r).value = 0 ∧
      ∀ p ∈ (chsh_metric r).extras, p.2 = 0 := by
  refine ⟨fun l h => getCount_of_not_mem r.counts l h, ?_, ?_⟩ <;>
  · have hHH := hz "HH" (by simp [CHSH_LABELS])
    have hHV := hz "HV" (by simp [CHSH_LABELS])
    have hVH := hz "VH" (by simp [CHSH_LABELS])
    have hVV := hz "VV" (by simp [CHSH_LABELS])
    have hHD := hz "HD" (by simp [CHSH_LABELS])
    have hHA := hz "HA" (by simp [CHSH_LABELS])
    have hVD := hz "VD" (by simp [CHSH_LABELS])
    have hVA := hz "VA" (by simp [CHSH_LABELS])
    have hDH := hz "DH" (by simp [CHSH_LABELS])
    have hDV := hz "DV" (by simp [CHSH_LABELS])
    have hAH := hz "AH" (by simp [CHSH_LABELS])
    have hAV := hz "AV" (by simp [CHSH_LABELS])
    have hDD := hz "DD" (by simp [CHSH_LABELS])
    have hDA := hz "DA" (by simp [CHSH_LABELS])
    have hAD := hz "AD" (by simp [CHSH_LABELS])
    have hAA := hz "AA" (by simp [CHSH_LABELS])
    simp [chsh_metric, _correlation, hHH, hHV, hVH, hVV, hHD, hHA, hVD,
      hVA, hDH, hDV, hAH, hAV, hDD, hDA, hAD, hAA]

theorem chsh_metric_all_zero_witness :
    (∀ l : String,
        (∀ p ∈ (CoincidenceResult.mk [] []).counts, p.1 ≠ l) →
          getCount (CoincidenceResult.mk [] []).counts l = 0) ∧
      (chsh_metric (CoincidenceResult.mk [] [])).value = 0 ∧
      ∀ p ∈ (chsh_metric (CoincidenceResult.mk [] [])).extras, p.2 = 0 :=
  chsh_metric_all_zero ⟨[], []⟩ (by decide)

theorem specCorrelation_mem_Icc (a b c d : Nat) :
    -1 ≤ specCorrelation a b c d ∧ specCorrelation a b c d ≤ 1 := by
  unfold specCorrelation
  by_cases h : a + b + c + d = 0
  · simp [h]
  · have hpos : (0 : Rat) < ((a + b + c + d : Nat) : Rat) := by
      exact_mod_cast Nat.pos_of_ne_zero h
    simp only [h, if_false]
    constructor
    · rw [le_div_iff₀ hpos]
      push_cast
      linarith
    · rw [div_le_one hpos]
      push_cast
      linarith

/-- C8: every correlation coefficient computed by `_correlation` lies in
[−1, 1], whatever the label group; hence the CHSH value returned by
`chsh_metric` lies in [−4, 4]. -/
theorem chsh_metric_bounds (r : CoincidenceResult) :
    (∀ labels : String × String × String × String,
        -1 ≤ _correlation r.counts labels ∧ _correlation r.counts labels ≤ 1) ∧
      -4 ≤ (chsh_metric r).value ∧ (chsh_metric r).value ≤ 4 := by
  have hcorr : ∀ labels : String × String × String × String,
      -1 ≤ _correlation r.counts labels ∧ _correlation r.counts labels ≤ 1 := by
    rintro ⟨lpp, lpm, lmp, lmm⟩
    rw [correlation_eq_spec]
    exact specCorrelation_mem_Icc _ _ _ _
  refine ⟨hcorr, ?_, ?_⟩ <;>
  · have h1 := hcorr ("HH", "HV", "VH", "VV")
    have h2 := hcorr ("HD", "HA", "VD", "VA")
    have h3 := hcorr ("DH", "DV", "AH", "AV")
    have h4 := hcorr ("DD", "DA", "AD", "AA")
    simp only [chsh_metric]
    obtain ⟨h1l, h1r⟩ := h1
    obtain ⟨h2l, h2r⟩ := h2
    obtain ⟨h3l, h3r⟩ := h3
    obtain ⟨h4l, h4r⟩ := h4
    linarith

/-- C9: `chsh_metric` depends only on the sixteen CHSH labels: two results
whose counts agree on every label of `CHSH_LABELS` get the same metric
(value and extras); counts under other labels never influence the
output. -/
theorem chsh_metric_depends_only_on_chsh_labels (r₁ r₂ : CoincidenceResult)
    (h : ∀ l ∈ CHSH_LABELS, getCount r₁.counts l = getCount r₂.counts l) :
    chsh_metric r₁ = chsh_metric r₂ := by
  have hHH := h "HH" (by simp [CHSH_LABELS])
  have hHV := h "HV" (by simp [CHSH_LABELS])
  have hVH := h "VH" (by simp [CHSH_LABELS])
  have hVV := h "VV" (by simp [CHSH_LABELS])
  have hHD := h "HD" (by simp [CHSH_LABELS])
  have hHA := h "HA" (by simp [CHSH_LABELS])
  have hVD := h "VD" (by simp [CHSH_LABELS])
  have hVA := h "VA" (by simp [CHSH_LABELS])
  have hDH := h "DH" (by simp [CHSH_LABELS])
  have hDV := h "DV" (by simp [CHSH_LABELS])
  have hAH := h "AH" (by simp [CHSH_LABELS])
  have hAV := h "AV" (by simp [CHSH_LABELS])
  have hDD := h "DD" (by simp [CHSH_LABELS])
  have hDA := h "DA" (by simp [CHSH_LABELS])
  have hAD := h "AD" (by simp [CHSH_LABELS])
  have hAA := h "AA" (by simp [CHSH_LABELS])
  simp [chsh_metric, _correlation, hHH, hHV, hVH, hVV, hHD, hHA, hVD,
    hVA, hDH, hDV, hAH, hAV, hDD, hDA, hAD, hAA]

theorem chsh_metric_depends_only_witness :
    chsh_metric ⟨[("XY", 3)], []⟩ = chsh_metric ⟨[], []⟩ :=
  chsh_metric_depends_only_on_chsh_labels ⟨[("XY", 3)], []⟩ ⟨[], []⟩
    (by decide)

/-- C6: every spec of the shipped preset set DEFAULT_SPECS (DEFAULT_PAIRS
followed by GHZ_TRIPLETS) has a channel tuple of at least 2 channels with
no channel repeated, a strictly positive window, and a label that is
unique across the whole set. -/
theorem default_specs_invariant :
    (∀ s ∈ DEFAULT_SPECS,
        2 ≤ s.channels.length ∧ s.channels.Nodup ∧ 0 < s.window_ps) ∧
      (DEFAULT_SPECS.map CoincidenceSpec.label).Nodup := by
  decide

theorem foldl_append_map {α : Type} (f : α → String) (l : List α)
    (acc : List String) :
    l.foldl (fun ps x => ps ++ [f x]) acc = acc ++ l.map f := by
  induction l generalizing acc with
  | nil => simp
  | cons a t ih => simp [ih]

/-- C3: the payload is a comma-separated report listing, in order, each
singles channel in ascending numeric order as "Channel<k>: <count>", then
each coincidence label as "<label>: <count>", then — when an accidentals
mapping is supplied — each accidentals label as "<label>_acc: <value with
2 decimals>". -/
theorem format_payload_report (singles : List (Nat × Nat))
    (coincidences : List (String × Nat)) (accs : List (String × Rat))
    (hne : accs ≠ []) :
    ∃ ks : List Nat,
      ks.Sorted (· ≤ ·) ∧ List.Perm ks (singles.map Prod.fst) ∧
      _format_payload singles coincidences none =
        String.intercalate ", "
          (ks.map (fun ch =>
              "Channel" ++ toString ch ++ ": " ++ toString (getNat singles ch)) ++
            (coincidences.map Prod.fst).map (fun label =>
              label ++ ": " ++ toString (getCount coincidences label))) ∧
      _format_payload singles coincidences (some accs) =
        String.intercalate ", "
          (ks.map (fun ch =>
              "Channel" ++ toString ch ++ ": " ++ toString (getNat singles ch)) ++
            (coincidences.map Prod.fst).map (fun label =>
              label ++ ": " ++ toString (getCount coincidences label)) ++
            (accs.map Prod.fst).map (fun label =>
              label ++ "_acc: " ++ fmt2 (getRat accs label))) := by
  have hempty : accs.isEmpty = false := by
    cases accs with
    | nil => exact absurd rfl hne
    | cons a t => rfl
  refine ⟨List.insertionSort (· ≤ ·) (singles.map Prod.fst),
    List.sorted_insertionSort _ _, List.perm_insertionSort _ _, ?_, ?_⟩
  · simp [_format_payload, foldl_append_map]
  · simp [_format_payload, foldl_append_map, hempty]

theorem format_payload_report_witness :
    ∃ ks : List Nat,
      ks.Sorted (· ≤ ·) ∧ List.Perm ks ([((5 : Nat), (1 : Nat))].map Prod.fst) ∧
      _format_payload [(5, 1)] [("HH", 4)] none =
        String.intercalate ", "
          (ks.map (fun ch =>
              "Channel" ++ toString ch ++ ": " ++ toString (getNat [(5, 1)] ch)) ++
            ([(("HH" : String), (4 : Nat))].map Prod.fst).map (fun label =>
              label ++ ": " ++ toString (getCount [("HH", 4)] label))) ∧
      _format_payload [(5, 1)] [("HH", 4)] (some [("GHZ_135", 1 / 2)]) =
        String.intercalate ", "
          (ks.map (fun ch =>
              "Channel" ++ toString ch ++ ": " ++ toString (getNat [(5, 1)] ch)) ++
            ([(("HH" : String), (4 : Nat))].map Prod.fst).map (fun label =>
              label ++ ": " ++ toString (getCount [("HH", 4)] label)) ++
            ([(("GHZ_135" : String), (1 / 2 : Rat))].map Prod.fst).map (fun label =>
              label ++ "_acc: " ++ fmt2 (getRat [("GHZ_135", 1 / 2)] label))) :=
  format_payload_report [(5, 1)] [("HH", 4)] [("GHZ_135", 1 / 2)] (by decide)

/-- C4: the dispatch recognizes exactly "GATHER DATA" (reply: the
formatted payload of the captured batch), "STOP" (reply "Ending recording
now." and the serving loop flag goes false), and commands beginning with
"EXPOSURE" whose suffix parses as a float x (both the stored exposure and
the backend exposure become x); every other command is answered "Unknown
command". -/
theorem server_dispatch_commands (includeAcc : Bool)
    (singles : List (Nat × Nat)) (counts : List (String × Nat))
    (accidentals : List (String × Rat)) (st : ServerState) (cmd : String)
    (x : Rat) :
    serverDispatch includeAcc singles counts accidentals st "GATHER DATA" =
        ( _format_payload singles counts
            (if includeAcc then some accidentals else none)
        , st, true ) ∧
      serverDispatch includeAcc singles counts accidentals st "STOP" =
        ("Ending recording now.", st, false) ∧
      (pyStartsWith cmd "EXPOSURE" = true →
        parseFloat (pyStrip (pyDropChars cmd 8)) = some x →
        serverDispatch includeAcc singles counts accidentals st cmd =
          ("Exposure time is " ++ fmtExposure x ++ " s.",
            ServerState.mk x x, true)) ∧
      (cmd ≠ "GATHER DATA" → cmd ≠ "STOP" →
        pyStartsWith cmd "EXPOSURE" = false →
        serverDispatch includeAcc singles counts accidentals st cmd =
          ("Unknown command", st, true)) := by
  refine ⟨rfl, rfl, ?_, ?_⟩
  · intro hs hp
    have h1 : cmd ≠ "GATHER DATA" := by
      rintro rfl; exact absurd hs (by decide)
    have h2 : cmd ≠ "STOP" := by
      rintro rfl; exact absurd hs (by decide)
    simp [serverDispatch, h1, h2, hs, hp]
  · intro h1 h2 h3
    simp [serverDispatch, h1, h2, h3]

theorem server_dispatch_commands_witness :
    serverDispatch false [] [] [] ⟨5, 5⟩ "EXPOSURE 2.5" =
        ("Exposure time is " ++ fmtExposure (5 / 2) ++ " s.",
          ServerState.mk (5 / 2) (5 / 2), true) ∧
      serverDispatch false [] [] [] ⟨5, 5⟩ "HELLO" =
        ("Unknown command", ⟨5, 5⟩, true) :=
  ⟨(server_dispatch_commands false [] [] [] ⟨5, 5⟩ "EXPOSURE 2.5"
      (5 / 2)).2.2.1 (by decide)
      (by
        rw [show parseFloat (pyStrip (pyDropChars "EXPOSURE 2.5" 8)) =
            some (((1 : Int) : Rat) * ((25 : Nat) : Rat) / (10 : Rat) ^ (1 : Nat))
          from rfl]
        norm_num),
    (server_dispatch_commands false [] [] [] ⟨5, 5⟩ "HELLO" 0).2.2.2
      (by decide) (by decide) (by decide)⟩

/-- C5: accidentals entries reach the payload only when accidentals are
enabled: with the flag off, the GATHER DATA reply does not depend on the
accidentals mapping at all and equals the payload built without an
accidentals section (only singles parts and coincidence parts); with the
flag on, the reply is the payload built with the accidentals mapping. -/
theorem accidentals_omitted_when_disabled (singles : List (Nat × Nat))
    (counts : List (String × Nat)) (accs accsOther : List (String × Rat))
    (st : ServerState) :
    serverDispatch false singles counts accs st "GATHER DATA" =
        serverDispatch false singles counts accsOther st "GATHER DATA" ∧
      (serverDispatch false singles counts accs st "GATHER DATA").1 =
        _format_payload singles counts none ∧
      _format_payload singles counts none =
        String.intercalate ", "
          ((List.insertionSort (· ≤ ·) (singles.map Prod.fst)).map (fun ch =>
              "Channel" ++ toString ch ++ ": " ++ toString (getNat singles ch)) ++
            (counts.map Prod.fst).map (fun label =>
              label ++ ": " ++ toString (getCount counts label))) ∧
      (serverDispatch true singles counts accs st "GATHER DATA").1 =
        _format_payload singles counts (some accs) := by
  refine ⟨rfl, rfl, ?_, rfl⟩
  simp [_format_payload, foldl_append_map]

/-- C10: when the suffix of a received EXPOSURE command does not parse as
a float, the reply is "Invalid exposure time value." and the exposure
state (stored setting and backend exposure) is returned unchanged. -/
theorem server_exposure_invalid (includeAcc : Bool)
    (singles : List (Nat × Nat)) (counts : List (String × Nat))
    (accidentals : List (String × Rat)) (st : ServerState) (cmd : String)
    (hs : pyStartsWith cmd "EXPOSURE" = true)
    (hp : parseFloat (pyStrip (pyDropChars cmd 8)) = none) :
    serverDispatch includeAcc singles counts accidentals st cmd =
      ("Invalid exposure time value.", st, true) := by
  have h1 : cmd ≠ "GATHER DATA" := by
    rintro rfl; exact absurd hs (by decide)
  have h2 : cmd ≠ "STOP" := by
    rintro rfl; exact absurd hs (by decide)
  simp [serverDispatch, h1, h2, hs, hp]

theorem server_exposure_invalid_witness :
    serverDispatch false [] [] [] ⟨5, 5⟩ "EXPOSUREabc" =
      ("Invalid exposure time value.", ⟨5, 5⟩, true) :=
  server_exposure_invalid false [] [] [] ⟨5, 5⟩ "EXPOSUREabc"
    (by decide) (by decide)

/-- C7: under the spec-modelled `specs_from_delays`, every cross pair
(label, a, b) yields a spec whose delay is the difference of its two
channels' calibrated delays — a relative offset, not either channel's
absolute delay. -/
theorem specs_from_delays_cross_relative (window_ps : Rat)
    (like_pairs cross_pairs : List (String × Nat × Nat))
    (delays_ps : List (Nat × Rat)) (l : String) (a b : Nat)
    (h : (l, a, b) ∈ cross_pairs) :
    ∃ s ∈ specs_from_delays window_ps like_pairs cross_pairs delays_ps,
      s.label = l ∧ s.channels = [a, b] ∧
      s.delay_ps = getDelay delays_ps b - getDelay delays_ps a :=
  ⟨_, List.mem_map_of_mem _ (List.mem_append_right _ h), rfl, rfl, rfl⟩

theorem specs_from_delays_cross_relative_witness :
    ∃ s ∈ specs_from_delays 200 [] [("HV", 1, 6)] [(1, 10), (6, 25)],
      s.label = "HV" ∧ s.channels = [1, 6] ∧
      s.delay_ps = getDelay [(1, 10), (6, 25)] 6 - getDelay [(1, 10), (6, 25)] 1 :=
  specs_from_delays_cross_relative 200 [] [("HV", 1, 6)] [(1, 10), (6, 25)]
    "HV" 1 6 (by decide)

end QLaibLib
